import Mathlib

/-!
Shallow embedding of the core logic of the Mock Trial tutoring application:
the content-relevance classifier and blocking policy (`src/server/content-filter.ts`)
and the usage-limit accounting (`src/server/routes.ts`, `checkUsageLimits`).

Conventions of the embedding:
* JavaScript strings are Lean `String`s; `String.prototype.includes` is the
  executable substring test `strIncludes`; `toLowerCase`/`trim` are modelled
  character-wise (the lexicon is pure ASCII).
* Confidence scores are stored in exact integer hundredths (`85` denotes the
  source literal `0.85`); every confidence produced by the source is an exact
  multiple of 0.01, and `Math.min(0.95, totalNonLit / 5)` is `min 95 (20 * n)`,
  so all comparisons (in particular the `>= 0.7` blocking threshold, i.e.
  `70 ≤ confidence`) have exactly the behaviour of the JavaScript numbers.
* Fallible storage reads are `Except ε` values; a `try`/`catch` block is a
  `match` on the propagated `Except`.
* Monetary amounts are exact rationals (`ℚ`); the schema stores cost limits as
  decimal strings parsed with `parseFloat`, modelled by `parseFloatQ`.
-/

/-- Test whether the second character list is a prefix of the first. -/
def charsStartWith : List Char → List Char → Bool
  | _, [] => true
  | [], _ :: _ => false
  | c :: cs, d :: ds => (c == d) && charsStartWith cs ds

/-- Test whether the second character list occurs contiguously inside the
first; this is the semantics of JavaScript `String.prototype.includes`. -/
def charsHasSub : List Char → List Char → Bool
  | [], n => n.isEmpty
  | c :: t, n => charsStartWith (c :: t) n || charsHasSub t n

/-- JavaScript `haystack.includes(needle)`. -/
def strIncludes (haystack needle : String) : Bool :=
  charsHasSub haystack.data needle.data

/-- JavaScript `String.prototype.toLowerCase` (ASCII; the lexicon is ASCII). -/
def lowerStr (s : String) : String :=
  ⟨s.data.map Char.toLower⟩

/-- Drop whitespace from both ends of a character list. -/
def trimChars (l : List Char) : List Char :=
  ((l.dropWhile Char.isWhitespace).reverse.dropWhile Char.isWhitespace).reverse

/-- JavaScript `String.prototype.trim`. -/
def trimStr (s : String) : String :=
  ⟨trimChars s.data⟩

/-- The `math` entry of `NON_ENGLISH_KEYWORDS` in `content-filter.ts`. -/
def mathKeywords : List String :=
  ["algebra", "calculus", "derivative", "integral", "equation", "formula",
   "polynomial", "matrix", "logarithm", "trigonometry", "geometry", "theorem",
   "proof", "factor", "variable", "coefficient", "quadratic", "linear",
   "exponential", "sine", "cosine", "tangent", "pi", "infinity", "limit",
   "differential", "mathematics", "arithmetic", "fraction", "decimal",
   "percentage", "statistics", "probability", "graph", "coordinate",
   "angle", "radius", "diameter", "circumference", "area", "volume",
   "perimeter", "hypotenuse", "vertex", "slope", "intercept"]

/-- The `science` entry of `NON_ENGLISH_KEYWORDS` in `content-filter.ts`. -/
def scienceKeywords : List String :=
  ["physics", "chemistry", "biology", "cell", "DNA", "RNA", "gene",
   "chromosome", "protein", "enzyme", "molecule", "atom", "electron",
   "proton", "neutron", "element", "compound", "reaction", "catalyst",
   "photosynthesis", "mitosis", "evolution", "ecosystem", "species",
   "habitat", "organism", "bacteria", "virus", "vaccine", "antibiotic",
   "gravity", "force", "energy", "momentum", "velocity", "acceleration",
   "magnetic", "electric", "circuit", "voltage", "current", "resistance",
   "wave", "frequency", "wavelength", "spectrum", "radiation",
   "nuclear", "atomic", "quantum", "periodic table", "isotope"]

/-- The `technology` entry of `NON_ENGLISH_KEYWORDS` in `content-filter.ts`. -/
def technologyKeywords : List String :=
  ["programming", "code", "algorithm", "python", "java", "javascript",
   "html", "css", "sql", "database", "server", "client", "api",
   "function", "variable", "loop", "array", "object", "class",
   "inheritance", "debugging", "compile", "syntax", "framework",
   "library", "software", "hardware", "computer", "processor",
   "memory", "storage", "network", "internet", "website", "application",
   "mobile", "android", "ios", "windows", "linux", "mac",
   "artificial intelligence", "machine learning", "data science",
   "blockchain", "cryptocurrency", "cloud computing"]

/-- The `other` entry of `NON_ENGLISH_KEYWORDS` in `content-filter.ts`. -/
def otherKeywords : List String :=
  ["economics", "finance", "accounting", "business", "marketing",
   "psychology", "sociology", "history", "geography", "politics",
   "government", "law", "legal", "philosophy", "theology", "religion",
   "medicine", "medical", "health", "anatomy", "physiology",
   "engineering", "mechanical", "electrical", "civil", "chemical"]

/-- The `LITERATURE_KEYWORDS` allowlist in `content-filter.ts`. -/
def literatureKeywords : List String :=
  ["princess bride", "westley", "buttercup", "inigo", "montoya", "fezzik",
   "vizzini", "humperdinck", "miracle max", "valerie", "albino", "rugen",
   "morgenstern", "goldman", "florin", "guilder", "cliffs of insanity",
   "fire swamp", "rodents of unusual size", "dread pirate roberts",
   "six fingered man", "as you wish", "hello my name is inigo montoya",
   "you killed my father", "prepare to die", "inconceivable",
   "mostly dead", "all dead", "iocane powder", "battle of wits",
   "murder", "murdered", "kill", "killed", "killing", "death", "die",
   "dying", "dead",
   "kidnap", "kidnapped", "kidnapping", "capture", "captured", "abduct",
   "torture", "tortured", "pain", "suffering", "machine",
   "poison", "poisoned", "iocane",
   "sword", "fight", "fighting", "duel", "battle", "combat", "fencing",
   "revenge", "vengeance", "avenge",
   "love", "true love", "romance", "marry", "marriage", "wedding", "bride",
   "groom",
   "giant", "monster", "beast", "rodent", "rous",
   "fire", "swamp", "cliff", "castle", "pit", "despair",
   "miracle", "magic", "witch", "wizard",
   "character", "motivation", "plot", "theme", "symbolism", "metaphor",
   "narrative", "story", "protagonist", "antagonist", "conflict",
   "resolution", "climax", "exposition", "rising action", "falling action",
   "literary device", "irony", "foreshadowing", "allegory", "satire",
   "mood", "tone", "setting", "dialogue", "monologue", "soliloquy",
   "point of view", "first person", "third person", "omniscient",
   "unreliable narrator", "genre", "fiction", "fantasy", "adventure",
   "romance", "comedy", "tragedy", "epic", "novel", "book", "chapter",
   "scene", "act", "analysis", "interpretation", "meaning", "significance",
   "author", "reader", "audience", "criticism", "review", "essay",
   "literature", "english", "writing", "text", "passage", "quote",
   "quotation", "excerpt", "evidence", "support", "argument", "thesis",
   "reasoning", "logic", "persuasion", "rhetoric", "style", "voice",
   "diction", "syntax", "structure", "organization", "development"]

/-- An ASCII apostrophe, used by the `what'?s` regex alternative. -/
def apostrophe : String :=
  String.singleton (Char.ofNat 39)

/-- The alternatives of the anchored case-insensitive regex
`QUESTION_PATTERNS.homework`. -/
def homeworkOpeners : List String :=
  ["what is", "explain", "define", "how does", "calculate", "solve",
   "find the", "prove", "show that"]

/-- The alternatives of the anchored case-insensitive regex
`QUESTION_PATTERNS.directAnswer` (`what'?s` expands to two alternatives). -/
def directAnswerOpeners : List String :=
  ["what" ++ apostrophe ++ "s", "whats", "tell me about", "give me", "list"]

/-- Test an anchored case-insensitive pattern list against a string: does the
lowercased string start with one of the lowercase alternatives? -/
def matchesOpeners (openers : List String) (s : String) : Bool :=
  openers.any (fun p => charsStartWith (lowerStr s).data p.data)

/-- The combined `isHomeworkPattern` test of `checkContentFilter`
(`QUESTION_PATTERNS.homework.test(trimmed) || QUESTION_PATTERNS.directAnswer.test(trimmed)`). -/
def isHomeworkPattern (content : String) : Bool :=
  matchesOpeners homeworkOpeners (trimStr content) ||
    matchesOpeners directAnswerOpeners (trimStr content)

/-- The keywords of one category detected in the lowercased content: the loop
body `if (lowerContent.includes(keyword.toLowerCase()))` pushes the keyword and
increments the category score, so the score is the length of this list. -/
def matchedKeywords (keywords : List String) (content : String) : List String :=
  keywords.filter (fun k => strIncludes (lowerStr content) (lowerStr k))

/-- Number of `math` keywords occurring in the content (`scores.math`). -/
def mathScoreOf (content : String) : Nat :=
  (matchedKeywords mathKeywords content).length

/-- Number of `science` keywords occurring in the content (`scores.science`). -/
def scienceScoreOf (content : String) : Nat :=
  (matchedKeywords scienceKeywords content).length

/-- Number of `technology` keywords occurring in the content
(`scores.technology`). -/
def technologyScoreOf (content : String) : Nat :=
  (matchedKeywords technologyKeywords content).length

/-- Number of `other` keywords occurring in the content (`scores.other`). -/
def otherScoreOf (content : String) : Nat :=
  (matchedKeywords otherKeywords content).length

/-- Number of allowlist literature keywords occurring in the content
(`scores.literature`). -/
def litScoreOf (content : String) : Nat :=
  (matchedKeywords literatureKeywords content).length

/-- Result record of `checkContentFilter`; `confidence` is in exact integer
hundredths (85 denotes the source literal 0.85). `category` is `none` exactly
when the source leaves the optional field absent. -/
structure FilterResult where
  isViolation : Bool
  category : Option String
  confidence : Nat
  details : String
  deriving DecidableEq

/-- The primary (highest-scoring) off-topic category and its detected
keywords. The source computes `Object.entries(scores).filter(cat ≠ literature)
.sort(([,a],[,b]) => b - a)[0]`: a stable descending sort of
`[math, science, technology, other]` (object-literal declaration order), whose
first element is the first category in that order attaining the maximal
count. -/
def primaryEntry (m s t o : Nat) (dm ds dt dOther : List String) :
    String × List String :=
  if s ≤ m ∧ t ≤ m ∧ o ≤ m then ("math", dm)
  else if t ≤ s ∧ o ≤ s then ("science", ds)
  else if o ≤ t then ("technology", dt)
  else ("other", dOther)

/-- The decision ladder of `checkContentFilter` (lines 133-220 of
`content-filter.ts`), as a function of the five keyword counts, the
homework-pattern flag, and the per-category detected-keyword lists. -/
def classifyLadder (m s t o lit : Nat) (hw : Bool)
    (dm ds dt dOther : List String) : FilterResult :=
  if 1 ≤ m + s + t + o ∧ hw = true ∧ lit = 0 then
    ⟨true, some (primaryEntry m s t o dm ds dt dOther).1, 85,
      "Direct " ++ (primaryEntry m s t o dm ds dt dOther).1 ++
        " question detected. Keywords: " ++
        String.intercalate ", " (primaryEntry m s t o dm ds dt dOther).2 ++
        ". No literature context found."⟩
  else if 3 ≤ lit ∧ m + s + t + o ≤ 2 then
    ⟨false, none, 90,
      "Strong literature context detected (" ++ toString lit ++
        " lit keywords, " ++ toString (m + s + t + o) ++ " other keywords)"⟩
  else if 0 < lit ∧ m + s + t + o ≤ 2 then
    ⟨false, none, 80,
      "Literature context detected (" ++ toString lit ++ " lit keywords, " ++
        toString (m + s + t + o) ++ " other keywords)"⟩
  else if 3 ≤ m + s + t + o then
    ⟨true, some (primaryEntry m s t o dm ds dt dOther).1,
      min 95 (20 * (m + s + t + o)),
      toString (m + s + t + o) ++
        " non-literature keywords detected, primarily " ++
        (primaryEntry m s t o dm ds dt dOther).1 ++ ". Keywords: " ++
        String.intercalate ", "
          ((primaryEntry m s t o dm ds dt dOther).2.take 5)⟩
  else if 2 ≤ m + s + t + o then
    ⟨true, some (primaryEntry m s t o dm ds dt dOther).1, 70,
      toString (m + s + t + o) ++
        " non-literature keywords detected, possibly " ++
        (primaryEntry m s t o dm ds dt dOther).1 ++ ". Keywords: " ++
        String.intercalate ", " (primaryEntry m s t o dm ds dt dOther).2⟩
  else if m + s + t + o = 1 ∧ hw = false then
    ⟨false, none, 60,
      "Single non-literature keyword detected but appears contextual"⟩
  else
    ⟨false, none, 95, "Content appears to be literature-focused"⟩

/-- The exported classifier `checkContentFilter(content)` of
`content-filter.ts`: count keyword matches per category on the lowercased
content, test the homework patterns on the trimmed content, then run the
decision ladder. -/
def checkContentFilter (content : String) : FilterResult :=
  classifyLadder (mathScoreOf content) (scienceScoreOf content)
    (technologyScoreOf content) (otherScoreOf content) (litScoreOf content)
    (isHomeworkPattern content)
    (matchedKeywords mathKeywords content)
    (matchedKeywords scienceKeywords content)
    (matchedKeywords technologyKeywords content)
    (matchedKeywords otherKeywords content)

/-- The violation verdict of the decision ladder as a function of the total
off-topic count, the literature count and the homework flag alone (the
branches of `classifyLadder` decide `isViolation` from exactly these). -/
def violVerdict (n lit : Nat) (hw : Bool) : Bool :=
  if 1 ≤ n ∧ hw = true ∧ lit = 0 then true
  else if 3 ≤ lit ∧ n ≤ 2 then false
  else if 0 < lit ∧ n ≤ 2 then false
  else if 3 ≤ n then true
  else if 2 ≤ n then true
  else if n = 1 ∧ hw = false then false
  else false

/-- A student record (`students` table of `schema.ts`), restricted to the
fields `checkUsageLimits` reads. `dailyTokenLimit` is a nullable integer
column (`null` = no limit); `monthlyCostLimit` is a nullable decimal string. -/
structure Student where
  isActive : Bool
  dailyTokenLimit : Option Int
  monthlyCostLimit : Option String
  deriving DecidableEq

/-- The single global settings record (`settings` table of `schema.ts`),
restricted to the fields the core reads. -/
structure Settings where
  globalDailyTokenLimit : Option Int
  globalMonthlyCostLimit : Option String
  contentFilterMode : String
  deriving DecidableEq

/-- A usage window aggregate as returned by the storage collaborator
(`getUsageByStudent` / `getGlobalUsage`). -/
structure UsageAgg where
  totalTokens : Int
  totalCost : ℚ
  deriving DecidableEq

/-- The `limitsInfo` payload of a `checkUsageLimits` result. -/
structure LimitsInfo where
  dailyTokens : Int
  monthlyTokens : Int
  dailyCost : ℚ
  monthlyCost : ℚ
  deriving DecidableEq

/-- The result record of `checkUsageLimits`. -/
structure LimitCheckResult where
  canProceed : Bool
  reason : Option String
  limitsInfo : LimitsInfo
  deriving DecidableEq

/-- Value of a digit string read in base 10. -/
def digitsVal (l : List Char) : Nat :=
  l.foldl (fun a c => a * 10 + (c.toNat - 48)) 0

/-- Model of JavaScript `parseFloat` on plain decimal notation: skip leading
whitespace, read an optional sign, an integer part and an optional fractional
part, and ignore everything after them; `none` models `NaN` (no digit could be
read). Exponent notation and `Infinity` are not modelled; no claim depends on
them. -/
def parseFloatQ (s : String) : Option ℚ :=
  let l := s.data.dropWhile Char.isWhitespace
  let signNeg : Bool := match l with
    | c :: _ => c == '-'
    | [] => false
  let rest : List Char := match l with
    | c :: t => if c == '-' || c == '+' then t else l
    | [] => []
  let intPart := rest.takeWhile Char.isDigit
  let afterInt := rest.dropWhile Char.isDigit
  let fracPart : List Char := match afterInt with
    | c :: t => if c == '.' then t.takeWhile Char.isDigit else []
    | [] => []
  if intPart.isEmpty && fracPart.isEmpty then none
  else
    let mag : ℚ :=
      (digitsVal intPart : ℚ) + (digitsVal fracPart : ℚ) / (10 : ℚ) ^ fracPart.length
    some (if signNeg then -mag else mag)

/-- Guard `lim && used >= lim` for a nullable integer token limit: `null` and
`0` are falsy JavaScript numbers, so the ceiling is skipped for both; the
comparison is `usage ≥ limit` (inclusive-blocking). -/
def tokenCeilingHit (lim : Option Int) (used : Int) : Bool :=
  match lim with
  | none => false
  | some l => decide (l ≠ 0) && decide (l ≤ used)

/-- Guard `lim && cost >= parseFloat(lim)` for a nullable decimal-string cost
limit: `null` and the empty string are falsy, any other string (including
`"0"`) is truthy; a comparison against `NaN` is false. -/
def costCeilingHit (lim : Option String) (cost : ℚ) : Bool :=
  match lim with
  | none => false
  | some s =>
      !s.isEmpty &&
        (match parseFloatQ s with
         | none => false
         | some q => decide (q ≤ cost))

/-- The four ceiling checks of `checkUsageLimits` (lines 50-112 of
`routes.ts`), evaluated in source order on already-fetched data: student daily
tokens, student monthly cost, global daily tokens, global monthly cost. -/
def evalLimits (student : Student) (settings : Option Settings)
    (dailyUsage monthlyUsage globalDaily globalMonthly : UsageAgg) :
    LimitCheckResult :=
  if tokenCeilingHit student.dailyTokenLimit dailyUsage.totalTokens then
    ⟨false,
      some ("Daily token limit reached (" ++
        toString (student.dailyTokenLimit.getD 0) ++
        " tokens). Resets at midnight."),
      ⟨dailyUsage.totalTokens, monthlyUsage.totalTokens,
        dailyUsage.totalCost, monthlyUsage.totalCost⟩⟩
  else if costCeilingHit student.monthlyCostLimit monthlyUsage.totalCost then
    ⟨false,
      some ("Monthly cost limit reached ($" ++
        student.monthlyCostLimit.getD "" ++
        "). Resets on the 1st of next month."),
      ⟨dailyUsage.totalTokens, monthlyUsage.totalTokens,
        dailyUsage.totalCost, monthlyUsage.totalCost⟩⟩
  else if tokenCeilingHit (settings.bind Settings.globalDailyTokenLimit)
      globalDaily.totalTokens then
    ⟨false,
      some ("Global daily token limit reached (" ++
        toString ((settings.bind Settings.globalDailyTokenLimit).getD 0) ++
        " tokens). Resets at midnight."),
      ⟨dailyUsage.totalTokens, monthlyUsage.totalTokens,
        dailyUsage.totalCost, monthlyUsage.totalCost⟩⟩
  else if costCeilingHit (settings.bind Settings.globalMonthlyCostLimit)
      globalMonthly.totalCost then
    ⟨false,
      some ("Global monthly cost limit reached ($" ++
        (settings.bind Settings.globalMonthlyCostLimit).getD "" ++
        "). Resets on the 1st of next month."),
      ⟨dailyUsage.totalTokens, monthlyUsage.totalTokens,
        dailyUsage.totalCost, monthlyUsage.totalCost⟩⟩
  else
    ⟨true, none,
      ⟨dailyUsage.totalTokens, monthlyUsage.totalTokens,
        dailyUsage.totalCost, monthlyUsage.totalCost⟩⟩

/-- The body of the `try` block of `checkUsageLimits`: sequential storage
reads with exception propagation (each `await` that throws aborts the body),
the not-found/inactive early return, then the ceiling checks. -/
def runUsageChecks {ε : Type} (getStudent : Except ε (Option Student))
    (getSettings : Except ε (Option Settings))
    (getDaily getMonthly getGlobalDaily getGlobalMonthly : Except ε UsageAgg) :
    Except ε LimitCheckResult :=
  match getStudent with
  | .error e => .error e
  | .ok none => .ok ⟨false, some "Student not found or inactive", ⟨0, 0, 0, 0⟩⟩
  | .ok (some student) =>
      if student.isActive = false then
        .ok ⟨false, some "Student not found or inactive", ⟨0, 0, 0, 0⟩⟩
      else
        match getSettings with
        | .error e => .error e
        | .ok settings =>
            match getDaily with
            | .error e => .error e
            | .ok dailyUsage =>
                match getMonthly with
                | .error e => .error e
                | .ok monthlyUsage =>
                    match getGlobalDaily with
                    | .error e => .error e
                    | .ok globalDaily =>
                        match getGlobalMonthly with
                        | .error e => .error e
                        | .ok globalMonthly =>
                            .ok (evalLimits student settings dailyUsage
                              monthlyUsage globalDaily globalMonthly)

/-- `checkUsageLimits` of `routes.ts`: the `try` body above wrapped in the
`catch` that fails closed with a generic reason. The six parameters model the
outcomes of the six storage reads the function can perform. -/
def checkUsageLimits {ε : Type} (getStudent : Except ε (Option Student))
    (getSettings : Except ε (Option Settings))
    (getDaily getMonthly getGlobalDaily getGlobalMonthly : Except ε UsageAgg) :
    LimitCheckResult :=
  match runUsageChecks getStudent getSettings getDaily getMonthly
      getGlobalDaily getGlobalMonthly with
  | .ok r => r
  | .error _ =>
      ⟨false, some "Unable to verify usage limits. Please try again.",
        ⟨0, 0, 0, 0⟩⟩

/-- JavaScript template interpolation of the optional `category` field
(an absent field prints as `undefined`). -/
def categoryText : Option String → String
  | some c => c
  | none => "undefined"

/-- The mode lookup `settings?.contentFilterMode || 'normal'` (optional
chaining on a possibly-absent settings record; an empty string is falsy). -/
def effectiveMode (settings : Option Settings) : String :=
  match settings with
  | none => "normal"
  | some st => if st.contentFilterMode = "" then "normal" else st.contentFilterMode

/-- The result record of `shouldBlockContent`. -/
structure BlockResult where
  shouldBlock : Bool
  reason : Option String
  filterResult : FilterResult
  deriving DecidableEq

/-- The blocking policy of `shouldBlockContent` (lines 262-286 of
`content-filter.ts`) applied to an already-computed classification and the
fetched settings: never block a non-violation; in strict mode block every
violation; otherwise block only violations with confidence ≥ 0.7 (70
hundredths). -/
def decideBlock (filterResult : FilterResult) (settings : Option Settings) :
    BlockResult :=
  if filterResult.isViolation = false then
    ⟨false, none, filterResult⟩
  else if effectiveMode settings = "strict" then
    ⟨true,
      some ("Content appears to be about " ++
        (categoryText filterResult.category ++
          " rather than English literature. Please focus your questions on The Princess Bride characters, plot, themes, or literary analysis.")),
      filterResult⟩
  else if 70 ≤ filterResult.confidence then
    ⟨true,
      some ("This question seems to be about " ++
        (categoryText filterResult.category ++
          " rather than English literature. Please ask questions related to The Princess Bride story, characters, or literary analysis.")),
      filterResult⟩
  else
    ⟨false, none, filterResult⟩

/-- `shouldBlockContent(content)` of `content-filter.ts`: fetch the settings
(a fallible read), classify, and decide; on any thrown error the `catch`
fails open, returning `shouldBlock = false` with a fresh classification. -/
def shouldBlockContent {ε : Type} (getSettings : Except ε (Option Settings))
    (content : String) : BlockResult :=
  match getSettings with
  | .ok settings => decideBlock (checkContentFilter content) settings
  | .error _ => ⟨false, none, checkContentFilter content⟩

/-! Helper lemmas about the embedded string primitives and the ladder. -/

theorem charsStartWith_nilNeedle (h : List Char) :
    charsStartWith h [] = true := by
  cases h <;> rfl

theorem charsStartWith_self_append (n rest : List Char) :
    charsStartWith (n ++ rest) n = true := by
  induction n with
  | nil => exact charsStartWith_nilNeedle rest
  | cons c cs ih => simp [charsStartWith, ih]

theorem charsHasSub_nilNeedle (h : List Char) : charsHasSub h [] = true := by
  cases h with
  | nil => rfl
  | cons c t => rfl

theorem charsHasSub_self_append (n rest : List Char) :
    charsHasSub (n ++ rest) n = true := by
  cases n with
  | nil => exact charsHasSub_nilNeedle rest
  | cons c cs =>
      show (charsStartWith ((c :: cs) ++ rest) (c :: cs) ||
        charsHasSub (cs ++ rest) (c :: cs)) = true
      rw [charsStartWith_self_append (c :: cs) rest]
      rfl

theorem charsHasSub_append_left (a h n : List Char)
    (hh : charsHasSub h n = true) : charsHasSub (a ++ h) n = true := by
  induction a with
  | nil => exact hh
  | cons c t ih =>
      show (charsStartWith (c :: (t ++ h)) n || charsHasSub (t ++ h) n) = true
      rw [ih]
      exact Bool.or_true _

theorem strIncludes_middle (a c b : String) :
    strIncludes (a ++ (c ++ b)) c = true := by
  show charsHasSub (a ++ (c ++ b)).data c.data = true
  have hd : (a ++ (c ++ b)).data = a.data ++ (c.data ++ b.data) := rfl
  rw [hd]
  exact charsHasSub_append_left _ _ _ (charsHasSub_self_append _ _)

theorem primaryEntry_cases (m s t o : Nat) (dm ds dt dOther : List String) :
    ((primaryEntry m s t o dm ds dt dOther).1 = "math" ∧
        s ≤ m ∧ t ≤ m ∧ o ≤ m) ∨
    ((primaryEntry m s t o dm ds dt dOther).1 = "science" ∧
        m < s ∧ t ≤ s ∧ o ≤ s) ∨
    ((primaryEntry m s t o dm ds dt dOther).1 = "technology" ∧
        m < t ∧ s < t ∧ o ≤ t) ∨
    ((primaryEntry m s t o dm ds dt dOther).1 = "other" ∧
        m < o ∧ s < o ∧ t < o) := by
  unfold primaryEntry
  split_ifs with h1 h2 h3
  · exact Or.inl ⟨rfl, h1.1, h1.2.1, h1.2.2⟩
  · exact Or.inr (Or.inl ⟨rfl, by omega, h2.1, h2.2⟩)
  · exact Or.inr (Or.inr (Or.inl ⟨rfl, by omega, by omega, h3⟩))
  · exact Or.inr (Or.inr (Or.inr ⟨rfl, by omega, by omega, by omega⟩))

theorem classifyLadder_isViolation (m s t o lit : Nat) (hw : Bool)
    (dm ds dt dOther : List String) :
    (classifyLadder m s t o lit hw dm ds dt dOther).isViolation =
      violVerdict (m + s + t + o) lit hw := by
  unfold classifyLadder violVerdict
  split_ifs <;> rfl

theorem classifyLadder_category_isSome (m s t o lit : Nat) (hw : Bool)
    (dm ds dt dOther : List String) :
    (classifyLadder m s t o lit hw dm ds dt dOther).category.isSome =
      (classifyLadder m s t o lit hw dm ds dt dOther).isViolation := by
  unfold classifyLadder
  split_ifs <;> rfl

theorem violVerdict_true_iff (n lit : Nat) (hw : Bool) :
    violVerdict n lit hw = true ↔
      (3 ≤ n ∨ (1 ≤ n ∧ lit = 0 ∧ (hw = true ∨ 2 ≤ n))) := by
  unfold violVerdict
  split_ifs with h1 h2 h3 h4 h5 h6
  · exact iff_of_true rfl (Or.inr ⟨h1.1, h1.2.2, Or.inl h1.2.1⟩)
  · apply iff_of_false not_false
    obtain ⟨h2a, h2b⟩ := h2
    rintro (h | ⟨hn, hl, -⟩) <;> omega
  · apply iff_of_false not_false
    obtain ⟨h3a, h3b⟩ := h3
    rintro (h | ⟨hn, hl, -⟩) <;> omega
  · exact iff_of_true rfl (Or.inl h4)
  · refine iff_of_true rfl (Or.inr ⟨by omega, ?_, Or.inr h5⟩)
    by_contra hne
    exact h3 ⟨Nat.pos_of_ne_zero hne, by omega⟩
  · apply iff_of_false not_false
    rintro (h | ⟨hn, hl, hc⟩)
    · omega
    · rcases hc with hhw | h2n
      · rw [h6.2] at hhw
        exact Bool.noConfusion hhw
      · omega
  · apply iff_of_false not_false
    rintro (h | ⟨hn, hl, hc⟩)
    · exact h4 h
    · have hn1 : n = 1 := by omega
      rcases hc with hhw | h2n
      · exact h1 ⟨hn, hhw, hl⟩
      · omega

theorem violVerdict_mono (n lit litMore : Nat) (hw hwMore : Bool)
    (hlt : lit < litMore) (h : violVerdict n lit hw = false) :
    violVerdict n litMore hwMore = false := by
  cases hv : violVerdict n litMore hwMore
  · rfl
  · exfalso
    have hR := (violVerdict_true_iff n litMore hwMore).mp hv
    rcases hR with h3 | ⟨hn, hl, hc⟩
    · have hT : violVerdict n lit hw = true :=
        (violVerdict_true_iff n lit hw).mpr (Or.inl h3)
      rw [h] at hT
      exact Bool.noConfusion hT
    · omega

/-! Claim theorems. -/

/-- C1: for every input string with at least one off-topic keyword occurring
as a case-insensitive substring, whose trimmed text matches the homework or
direct-answer opener pattern, and with zero allowlist (literature) keywords,
`checkContentFilter` returns a violation with confidence exactly 0.85 (85
hundredths) whose category is the off-topic category with the highest keyword
count, ties broken by the fixed precedence math, science, technology, other. -/
theorem checkContentFilter_homework_rule (content : String)
    (hn : 1 ≤ mathScoreOf content + scienceScoreOf content +
      technologyScoreOf content + otherScoreOf content)
    (hpat : isHomeworkPattern content = true)
    (hlit : litScoreOf content = 0) :
    (checkContentFilter content).isViolation = true ∧
    (checkContentFilter content).confidence = 85 ∧
    (((checkContentFilter content).category = some "math" ∧
        scienceScoreOf content ≤ mathScoreOf content ∧
        technologyScoreOf content ≤ mathScoreOf content ∧
        otherScoreOf content ≤ mathScoreOf content) ∨
     ((checkContentFilter content).category = some "science" ∧
        mathScoreOf content < scienceScoreOf content ∧
        technologyScoreOf content ≤ scienceScoreOf content ∧
        otherScoreOf content ≤ scienceScoreOf content) ∨
     ((checkContentFilter content).category = some "technology" ∧
        mathScoreOf content < technologyScoreOf content ∧
        scienceScoreOf content < technologyScoreOf content ∧
        otherScoreOf content ≤ technologyScoreOf content) ∨
     ((checkContentFilter content).category = some "other" ∧
        mathScoreOf content < otherScoreOf content ∧
        scienceScoreOf content < otherScoreOf content ∧
        technologyScoreOf content < otherScoreOf content)) := by
  unfold checkContentFilter classifyLadder
  rw [if_pos ⟨hn, hpat, hlit⟩]
  refine ⟨rfl, rfl, ?_⟩
  rcases primaryEntry_cases (mathScoreOf content) (scienceScoreOf content)
      (technologyScoreOf content) (otherScoreOf content)
      (matchedKeywords mathKeywords content)
      (matchedKeywords scienceKeywords content)
      (matchedKeywords technologyKeywords content)
      (matchedKeywords otherKeywords content) with
    ⟨hc, hb1, hb2, hb3⟩ | ⟨hc, hb1, hb2, hb3⟩ | ⟨hc, hb1, hb2, hb3⟩ |
    ⟨hc, hb1, hb2, hb3⟩
  · exact Or.inl ⟨by show some _ = some "math"; rw [hc], hb1, hb2, hb3⟩
  · exact Or.inr (Or.inl ⟨by show some _ = some "science"; rw [hc], hb1, hb2, hb3⟩)
  · exact Or.inr (Or.inr (Or.inl ⟨by show some _ = some "technology"; rw [hc],
      hb1, hb2, hb3⟩))
  · exact Or.inr (Or.inr (Or.inr ⟨by show some _ = some "other"; rw [hc],
      hb1, hb2, hb3⟩))

/-- Witness for C1 at the concrete input `"What is the derivative of x^2?"`
(one math keyword, homework opener, no literature keywords). -/
theorem checkContentFilter_homework_rule_witness :
    (1 ≤ mathScoreOf "What is the derivative of x^2?" +
      scienceScoreOf "What is the derivative of x^2?" +
      technologyScoreOf "What is the derivative of x^2?" +
      otherScoreOf "What is the derivative of x^2?") ∧
    isHomeworkPattern "What is the derivative of x^2?" = true ∧
    litScoreOf "What is the derivative of x^2?" = 0 ∧
    ((checkContentFilter "What is the derivative of x^2?").isViolation = true ∧
     (checkContentFilter "What is the derivative of x^2?").confidence = 85 ∧
     (((checkContentFilter "What is the derivative of x^2?").category = some "math" ∧
         scienceScoreOf "What is the derivative of x^2?" ≤ mathScoreOf "What is the derivative of x^2?" ∧
         technologyScoreOf "What is the derivative of x^2?" ≤ mathScoreOf "What is the derivative of x^2?" ∧
         otherScoreOf "What is the derivative of x^2?" ≤ mathScoreOf "What is the derivative of x^2?") ∨
      ((checkContentFilter "What is the derivative of x^2?").category = some "science" ∧
         mathScoreOf "What is the derivative of x^2?" < scienceScoreOf "What is the derivative of x^2?" ∧
         technologyScoreOf "What is the derivative of x^2?" ≤ scienceScoreOf "What is the derivative of x^2?" ∧
         otherScoreOf "What is the derivative of x^2?" ≤ scienceScoreOf "What is the derivative of x^2?") ∨
      ((checkContentFilter "What is the derivative of x^2?").category = some "technology" ∧
         mathScoreOf "What is the derivative of x^2?" < technologyScoreOf "What is the derivative of x^2?" ∧
         scienceScoreOf "What is the derivative of x^2?" < technologyScoreOf "What is the derivative of x^2?" ∧
         otherScoreOf "What is the derivative of x^2?" ≤ technologyScoreOf "What is the derivative of x^2?") ∨
      ((checkContentFilter "What is the derivative of x^2?").category = some "other" ∧
         mathScoreOf "What is the derivative of x^2?" < otherScoreOf "What is the derivative of x^2?" ∧
         scienceScoreOf "What is the derivative of x^2?" < otherScoreOf "What is the derivative of x^2?" ∧
         technologyScoreOf "What is the derivative of x^2?" < otherScoreOf "What is the derivative of x^2?"))) :=
  ⟨by decide, by decide, by decide,
    checkContentFilter_homework_rule "What is the derivative of x^2?"
      (by decide) (by decide) (by decide)⟩

/-- C6 counterexample: the empty string and `"novel"` have identical (all
zero) off-topic keyword matches and the same homework-pattern status, and
`"novel"` adds one allowlist keyword occurrence; both are allow verdicts, yet
the allow confidence drops from 0.95 (rule g) to 0.8 (rule c), so adding an
allowlist keyword occurrence can lower the confidence of an allow verdict. -/
theorem allow_confidence_not_monotone_cex :
    mathScoreOf "" = mathScoreOf "novel" ∧
    scienceScoreOf "" = scienceScoreOf "novel" ∧
    technologyScoreOf "" = technologyScoreOf "novel" ∧
    otherScoreOf "" = otherScoreOf "novel" ∧
    isHomeworkPattern "" = isHomeworkPattern "novel" ∧
    litScoreOf "" < litScoreOf "novel" ∧
    (checkContentFilter "").isViolation = false ∧
    (checkContentFilter "novel").isViolation = false ∧
    (checkContentFilter "novel").confidence < (checkContentFilter "").confidence := by
  decide

/-- C6 (amended): with the off-topic keyword matches held fixed, adding
allowlist keyword occurrences (strictly increasing the allowlist count) never
turns an allow verdict into a violation — equivalently, it can only move a
violation toward not-violation — whatever happens to the homework-pattern
status: a nonzero allowlist count disables rule (a), and since an allow
verdict forces the off-topic total below 3, rules (b)/(c) intercept before
any violation rule. The original claim's further assertion that the
confidence of an allow verdict never decreases is false (see the
counterexample). -/
theorem checkContentFilter_verdict_monotone (a b : String)
    (hm : mathScoreOf a = mathScoreOf b)
    (hs : scienceScoreOf a = scienceScoreOf b)
    (ht : technologyScoreOf a = technologyScoreOf b)
    (ho : otherScoreOf a = otherScoreOf b)
    (hlit : litScoreOf a < litScoreOf b)
    (hallow : (checkContentFilter a).isViolation = false) :
    (checkContentFilter b).isViolation = false := by
  unfold checkContentFilter at hallow ⊢
  rw [classifyLadder_isViolation] at hallow ⊢
  rw [← hm, ← hs, ← ht, ← ho]
  exact violVerdict_mono _ _ _ _ _ hlit hallow

/-- Witness for C6's amended theorem at the concrete pair `"list"` and
`"novel list"` (zero off-topic keywords each, allowlist count 0 and 1, both
allow verdicts); the pair also exercises a changing homework-pattern status —
`"list"` matches the direct-answer opener, `"novel list"` does not. -/
theorem checkContentFilter_verdict_monotone_witness :
    mathScoreOf "list" = mathScoreOf "novel list" ∧
    scienceScoreOf "list" = scienceScoreOf "novel list" ∧
    technologyScoreOf "list" = technologyScoreOf "novel list" ∧
    otherScoreOf "list" = otherScoreOf "novel list" ∧
    litScoreOf "list" < litScoreOf "novel list" ∧
    isHomeworkPattern "list" = true ∧
    isHomeworkPattern "novel list" = false ∧
    (checkContentFilter "list").isViolation = false ∧
    (checkContentFilter "novel list").isViolation = false :=
  ⟨by decide, by decide, by decide, by decide, by decide, by decide, by decide,
    by decide,
    checkContentFilter_verdict_monotone "list" "novel list" (by decide)
      (by decide) (by decide) (by decide) (by decide) (by decide)⟩

/-- C7: on the input `"Explain photosynthesis and cell biology"` the
classifier finds three science keywords (`biology`, `cell`, `photosynthesis`)
and one literature keyword (`thesis`, inside `photosynthesis`), so rule (a)
is skipped and rule (d) fires: a violation with category `science` and
confidence 0.6 (60 hundredths, `min 0.95 (3/5)`). -/
theorem photosynthesis_example :
    (checkContentFilter "Explain photosynthesis and cell biology").isViolation = true ∧
    (checkContentFilter "Explain photosynthesis and cell biology").category = some "science" ∧
    (checkContentFilter "Explain photosynthesis and cell biology").confidence = 60 := by
  decide

/-- C8: `checkContentFilter` is total by construction (it is a Lean function
into `FilterResult`), and on every input with zero off-topic and zero
allowlist keyword matches it falls through the whole ladder to rule (g):
not a violation, confidence 0.95. -/
theorem checkContentFilter_no_keywords (content : String)
    (hn : mathScoreOf content + scienceScoreOf content +
      technologyScoreOf content + otherScoreOf content = 0)
    (hl : litScoreOf content = 0) :
    checkContentFilter content =
      ⟨false, none, 95, "Content appears to be literature-focused"⟩ := by
  have h1 : ¬(1 ≤ mathScoreOf content + scienceScoreOf content +
      technologyScoreOf content + otherScoreOf content ∧
      isHomeworkPattern content = true ∧ litScoreOf content = 0) := by
    rintro ⟨h, -, -⟩
    omega
  have h2 : ¬(3 ≤ litScoreOf content ∧ mathScoreOf content +
      scienceScoreOf content + technologyScoreOf content +
      otherScoreOf content ≤ 2) := by
    rintro ⟨h, -⟩
    omega
  have h3 : ¬(0 < litScoreOf content ∧ mathScoreOf content +
      scienceScoreOf content + technologyScoreOf content +
      otherScoreOf content ≤ 2) := by
    rintro ⟨h, -⟩
    omega
  have h4 : ¬(3 ≤ mathScoreOf content + scienceScoreOf content +
      technologyScoreOf content + otherScoreOf content) := by omega
  have h5 : ¬(2 ≤ mathScoreOf content + scienceScoreOf content +
      technologyScoreOf content + otherScoreOf content) := by omega
  have h6 : ¬(mathScoreOf content + scienceScoreOf content +
      technologyScoreOf content + otherScoreOf content = 1 ∧
      isHomeworkPattern content = false) := by
    rintro ⟨h, -⟩
    omega
  unfold checkContentFilter classifyLadder
  rw [if_neg h1, if_neg h2, if_neg h3, if_neg h4, if_neg h5, if_neg h6]

/-- Witness for C8 at the whitespace-only input `"   "` (the empty-string
edge case of the claim is the degenerate form of the same computation). -/
theorem checkContentFilter_no_keywords_witness :
    (mathScoreOf "   " + scienceScoreOf "   " + technologyScoreOf "   " +
      otherScoreOf "   " = 0) ∧
    litScoreOf "   " = 0 ∧
    checkContentFilter "   " =
      ⟨false, none, 95, "Content appears to be literature-focused"⟩ :=
  ⟨by decide, by decide,
    checkContentFilter_no_keywords "   " (by decide) (by decide)⟩

/-- C10: for every input the optional `category` field of the classifier
result is present exactly when `isViolation` is `true`: every violation
branch of the ladder names a category and every allow branch omits it. -/
theorem checkContentFilter_category_iff_violation (content : String) :
    (checkContentFilter content).category.isSome =
      (checkContentFilter content).isViolation :=
  classifyLadder_category_isSome _ _ _ _ _ _ _ _ _ _

/-- C5: if the settings read throws while `shouldBlockContent` fetches the
content-filter mode, the `catch` fails open: the result is
`shouldBlock = false`, no reason, together with a freshly computed
classification result — for every input and every thrown error. -/
theorem shouldBlockContent_fail_open {ε : Type} (e : ε) (content : String) :
    shouldBlockContent (Except.error e) content =
      ⟨false, none, checkContentFilter content⟩ := rfl

/-- C2: for every classification result and settings record: a non-violation
is never blocked; in strict mode every violation is blocked; in normal mode a
violation is blocked exactly when its confidence is at least 0.7 (70
hundredths); and every produced blocking reason contains the name of the
detected category as a substring. -/
theorem decideBlock_policy (fr : FilterResult) (settings : Option Settings)
    (r c : String) :
    (fr.isViolation = false → (decideBlock fr settings).shouldBlock = false) ∧
    (effectiveMode settings = "strict" → fr.isViolation = true →
      (decideBlock fr settings).shouldBlock = true) ∧
    (effectiveMode settings = "normal" →
      ((decideBlock fr settings).shouldBlock = true ↔
        (fr.isViolation = true ∧ 70 ≤ fr.confidence))) ∧
    ((decideBlock fr settings).reason = some r → fr.category = some c →
      strIncludes r c = true) := by
  unfold decideBlock
  by_cases hv : fr.isViolation = false
  · rw [if_pos hv]
    refine ⟨fun _ => rfl, ?_, ?_, ?_⟩
    · intro _ hvt
      rw [hvt] at hv
      exact absurd hv (by simp)
    · intro _
      constructor
      · intro h
        exact absurd h (by simp)
      · rintro ⟨hvt, -⟩
        rw [hvt] at hv
        exact absurd hv (by simp)
    · intro hr
      exact Option.noConfusion hr
  · rw [if_neg hv]
    have hvt : fr.isViolation = true := by
      cases hvv : fr.isViolation
      · exact absurd hvv hv
      · rfl
    by_cases hmode : effectiveMode settings = "strict"
    · rw [if_pos hmode]
      refine ⟨fun hf => absurd hf hv, fun _ _ => rfl, ?_, ?_⟩
      · intro hnm
        rw [hmode] at hnm
        exact absurd hnm (by decide)
      · intro hr hcat
        have hr' := Option.some.inj hr
        rw [← hr', hcat]
        show strIncludes ("Content appears to be about " ++
          (categoryText (some c) ++
            " rather than English literature. Please focus your questions on The Princess Bride characters, plot, themes, or literary analysis.")) c = true
        exact strIncludes_middle _ _ _
    · rw [if_neg hmode]
      by_cases hc70 : 70 ≤ fr.confidence
      · rw [if_pos hc70]
        refine ⟨fun hf => absurd hf hv, fun hst => absurd hst hmode, ?_, ?_⟩
        · intro _
          exact ⟨fun _ => ⟨hvt, hc70⟩, fun _ => rfl⟩
        · intro hr hcat
          have hr' := Option.some.inj hr
          rw [← hr', hcat]
          show strIncludes ("This question seems to be about " ++
            (categoryText (some c) ++
              " rather than English literature. Please ask questions related to The Princess Bride story, characters, or literary analysis.")) c = true
          exact strIncludes_middle _ _ _
      · rw [if_neg hc70]
        refine ⟨fun _ => rfl, fun hst => absurd hst hmode, ?_, ?_⟩
        · intro _
          constructor
          · intro h
            exact absurd h (by simp)
          · rintro ⟨-, hcc⟩
            exact absurd hcc hc70
        · intro hr
          exact Option.noConfusion hr

/-- Witness for C2 at a concrete violation with category `math` and
confidence 0.85 under absent settings (normal mode): it is blocked and the
produced reason contains `math`. -/
theorem decideBlock_policy_witness :
    (((⟨true, some "math", 85, ""⟩ : FilterResult).isViolation = false →
      (decideBlock ⟨true, some "math", 85, ""⟩ none).shouldBlock = false) ∧
    (effectiveMode none = "strict" →
      (⟨true, some "math", 85, ""⟩ : FilterResult).isViolation = true →
      (decideBlock ⟨true, some "math", 85, ""⟩ none).shouldBlock = true) ∧
    (effectiveMode none = "normal" →
      ((decideBlock ⟨true, some "math", 85, ""⟩ none).shouldBlock = true ↔
        ((⟨true, some "math", 85, ""⟩ : FilterResult).isViolation = true ∧
          70 ≤ (⟨true, some "math", 85, ""⟩ : FilterResult).confidence))) ∧
    ((decideBlock ⟨true, some "math", 85, ""⟩ none).reason =
        some "This question seems to be about math rather than English literature. Please ask questions related to The Princess Bride story, characters, or literary analysis." →
      (⟨true, some "math", 85, ""⟩ : FilterResult).category = some "math" →
      strIncludes "This question seems to be about math rather than English literature. Please ask questions related to The Princess Bride story, characters, or literary analysis." "math" = true)) :=
  decideBlock_policy ⟨true, some "math", 85, ""⟩ none
    "This question seems to be about math rather than English literature. Please ask questions related to The Princess Bride story, characters, or literary analysis."
    "math"

/-- C3: `checkUsageLimits` never lets a storage exception escape: whenever a
storage read it actually performs throws (the student read, or — for an
active student — any of the settings/usage reads), the `catch` returns
`canProceed = false` with the generic "Unable to verify usage limits"
reason; in particular it never returns `canProceed = true` on an error
path. -/
theorem checkUsageLimits_fail_closed {ε : Type}
    (gs : Except ε (Option Student)) (gset : Except ε (Option Settings))
    (gd gm ggd ggm : Except ε UsageAgg)
    (herr : (∃ e, gs = Except.error e) ∨
      (∃ st, gs = Except.ok (some st) ∧ st.isActive = true ∧
        ((∃ e, gset = Except.error e) ∨ (∃ e, gd = Except.error e) ∨
         (∃ e, gm = Except.error e) ∨ (∃ e, ggd = Except.error e) ∨
         (∃ e, ggm = Except.error e)))) :
    checkUsageLimits gs gset gd gm ggd ggm =
      ⟨false, some "Unable to verify usage limits. Please try again.",
        ⟨0, 0, 0, 0⟩⟩ := by
  rcases herr with ⟨e, rfl⟩ | ⟨st, rfl, hact, hrest⟩
  · rfl
  · simp only [checkUsageLimits, runUsageChecks, hact]
    rw [if_neg (by decide : ¬(true = false))]
    cases gset with
    | error e => rfl
    | ok settings =>
        cases gd with
        | error e => rfl
        | ok dU =>
            cases gm with
            | error e => rfl
            | ok mU =>
                cases ggd with
                | error e => rfl
                | ok gdU =>
                    cases ggm with
                    | error e => rfl
                    | ok gmU =>
                        exfalso
                        rcases hrest with ⟨e, h⟩ | ⟨e, h⟩ | ⟨e, h⟩ |
                          ⟨e, h⟩ | ⟨e, h⟩ <;> exact Except.noConfusion h

/-- Witness for C3: the student read throws. -/
theorem checkUsageLimits_fail_closed_witness :
    checkUsageLimits (ε := Unit) (Except.error ()) (Except.ok none)
      (Except.ok ⟨0, 0⟩) (Except.ok ⟨0, 0⟩) (Except.ok ⟨0, 0⟩)
      (Except.ok ⟨0, 0⟩) =
      ⟨false, some "Unable to verify usage limits. Please try again.",
        ⟨0, 0, 0, 0⟩⟩ :=
  checkUsageLimits_fail_closed _ _ _ _ _ _ (Or.inl ⟨(), rfl⟩)

/-- C4 counterexample: an active student whose `dailyTokenLimit` is
configured as the number `0` (not `null`) with a daily aggregate equal to the
limit (0 tokens) is allowed through (`canProceed = true`), because the
JavaScript guard tests the limit's truthiness and `0` is falsy; the claim as
stated (denial whenever the aggregate equals any configured limit) is
therefore false at limit 0. -/
theorem dailyLimit_zero_cex :
    (Student.mk true (some 0) none).dailyTokenLimit = some 0 ∧
    (⟨0, 0⟩ : UsageAgg).totalTokens = 0 ∧
    (checkUsageLimits (ε := Unit)
      (Except.ok (some (Student.mk true (some 0) none))) (Except.ok none)
      (Except.ok ⟨0, 0⟩) (Except.ok ⟨0, 0⟩) (Except.ok ⟨0, 0⟩)
      (Except.ok ⟨0, 0⟩)).canProceed = true :=
  ⟨rfl, rfl, by decide⟩

/-- C4 (amended): for every active student whose `dailyTokenLimit` is
configured with a nonzero value `L`, a daily aggregate equal to `L` is denied
with the daily-limit reason (the ceiling is violated at `usage ≥ limit`, not
only at `usage > limit`), and a daily aggregate of `L - 1` is allowed when no
other ceiling is violated. The restriction to nonzero `L` is forced by the
counterexample: the value `0` is falsy, so that ceiling is skipped. -/
theorem checkUsageLimits_daily_boundary (st : Student) (L : Int)
    (settings : Option Settings) (dAt dBelow mU gdU gmU : UsageAgg)
    (hact : st.isActive = true)
    (hlim : st.dailyTokenLimit = some L) (hL : L ≠ 0)
    (hat : dAt.totalTokens = L) (hbelow : dBelow.totalTokens = L - 1)
    (hmc : costCeilingHit st.monthlyCostLimit mU.totalCost = false)
    (hgd : tokenCeilingHit (settings.bind Settings.globalDailyTokenLimit)
      gdU.totalTokens = false)
    (hgm : costCeilingHit (settings.bind Settings.globalMonthlyCostLimit)
      gmU.totalCost = false) :
    ((checkUsageLimits (ε := Unit) (Except.ok (some st)) (Except.ok settings)
        (Except.ok dAt) (Except.ok mU) (Except.ok gdU)
        (Except.ok gmU)).canProceed = false ∧
      (checkUsageLimits (ε := Unit) (Except.ok (some st)) (Except.ok settings)
        (Except.ok dAt) (Except.ok mU) (Except.ok gdU)
        (Except.ok gmU)).reason =
        some ("Daily token limit reached (" ++ toString L ++
          " tokens). Resets at midnight.")) ∧
    (checkUsageLimits (ε := Unit) (Except.ok (some st)) (Except.ok settings)
        (Except.ok dBelow) (Except.ok mU) (Except.ok gdU)
        (Except.ok gmU)).canProceed = true := by
  have hhit : tokenCeilingHit st.dailyTokenLimit dAt.totalTokens = true := by
    rw [hlim, hat]
    show (decide (L ≠ 0) && decide (L ≤ L)) = true
    rw [decide_eq_true hL, decide_eq_true (le_refl L)]
    rfl
  have hmiss : tokenCeilingHit st.dailyTokenLimit dBelow.totalTokens = false := by
    rw [hlim, hbelow]
    show (decide (L ≠ 0) && decide (L ≤ L - 1)) = false
    have h2 : decide (L ≤ L - 1) = false := by
      rw [decide_eq_false_iff_not]
      omega
    rw [h2, Bool.and_false]
  have hred : ∀ dU : UsageAgg,
      checkUsageLimits (ε := Unit) (Except.ok (some st)) (Except.ok settings)
        (Except.ok dU) (Except.ok mU) (Except.ok gdU) (Except.ok gmU) =
        evalLimits st settings dU mU gdU gmU := by
    intro dU
    simp only [checkUsageLimits, runUsageChecks, hact]
    rw [if_neg (by decide : ¬(true = false))]
  rw [hred dAt, hred dBelow]
  unfold evalLimits
  rw [if_pos hhit, if_neg (by rw [hmiss]; exact Bool.false_ne_true),
    if_neg (by rw [hmc]; exact Bool.false_ne_true),
    if_neg (by rw [hgd]; exact Bool.false_ne_true),
    if_neg (by rw [hgm]; exact Bool.false_ne_true)]
  refine ⟨⟨rfl, ?_⟩, rfl⟩
  rw [hlim]
  rfl

/-- Witness for C4's amended theorem: limit 5, usage 5 denies with the daily
reason, usage 4 proceeds. -/
theorem checkUsageLimits_daily_boundary_witness :
    ((checkUsageLimits (ε := Unit)
        (Except.ok (some (Student.mk true (some 5) none))) (Except.ok none)
        (Except.ok ⟨5, 0⟩) (Except.ok ⟨0, 0⟩) (Except.ok ⟨0, 0⟩)
        (Except.ok ⟨0, 0⟩)).canProceed = false ∧
      (checkUsageLimits (ε := Unit)
        (Except.ok (some (Student.mk true (some 5) none))) (Except.ok none)
        (Except.ok ⟨5, 0⟩) (Except.ok ⟨0, 0⟩) (Except.ok ⟨0, 0⟩)
        (Except.ok ⟨0, 0⟩)).reason =
        some ("Daily token limit reached (" ++ toString (5 : Int) ++
          " tokens). Resets at midnight.")) ∧
    (checkUsageLimits (ε := Unit)
        (Except.ok (some (Student.mk true (some 5) none))) (Except.ok none)
        (Except.ok ⟨4, 0⟩) (Except.ok ⟨0, 0⟩) (Except.ok ⟨0, 0⟩)
        (Except.ok ⟨0, 0⟩)).canProceed = true :=
  checkUsageLimits_daily_boundary (Student.mk true (some 5) none) 5 none
    ⟨5, 0⟩ ⟨4, 0⟩ ⟨0, 0⟩ ⟨0, 0⟩ ⟨0, 0⟩ rfl rfl (by decide) rfl (by decide)
    rfl rfl rfl

/-- C9: an integer token limit configured as the number `0` behaves exactly
as "no limit": for an active student, replacing `dailyTokenLimit = 0` by
`null` leaves the `checkUsageLimits` result unchanged (so the daily-token
check never denies at limit 0, whatever the usage), and likewise for the
global `globalDailyTokenLimit = 0`. -/
theorem zero_token_limits_skipped (st : Student) (stg : Settings)
    (dU mU gdU gmU : UsageAgg)
    (hact : st.isActive = true)
    (hday : st.dailyTokenLimit = some 0)
    (hglob : stg.globalDailyTokenLimit = some 0) :
    (checkUsageLimits (ε := Unit) (Except.ok (some st))
        (Except.ok (some stg)) (Except.ok dU) (Except.ok mU) (Except.ok gdU)
        (Except.ok gmU) =
      checkUsageLimits (ε := Unit)
        (Except.ok (some { st with dailyTokenLimit := none }))
        (Except.ok (some stg)) (Except.ok dU) (Except.ok mU) (Except.ok gdU)
        (Except.ok gmU)) ∧
    (checkUsageLimits (ε := Unit) (Except.ok (some st))
        (Except.ok (some stg)) (Except.ok dU) (Except.ok mU) (Except.ok gdU)
        (Except.ok gmU) =
      checkUsageLimits (ε := Unit) (Except.ok (some st))
        (Except.ok (some { stg with globalDailyTokenLimit := none }))
        (Except.ok dU) (Except.ok mU) (Except.ok gdU) (Except.ok gmU)) := by
  obtain ⟨act, dlim, mlim⟩ := st
  obtain ⟨gdl, gml, mode⟩ := stg
  simp only at hact hday hglob
  subst hact hday hglob
  constructor
  · simp [checkUsageLimits, runUsageChecks, evalLimits, tokenCeilingHit]
  · simp [checkUsageLimits, runUsageChecks, evalLimits, tokenCeilingHit]

/-- Witness for C9 at a concrete student and settings record with both
integer limits configured as 0 and nonzero usage everywhere. -/
theorem zero_token_limits_skipped_witness :
    (checkUsageLimits (ε := Unit)
        (Except.ok (some (Student.mk true (some 0) none)))
        (Except.ok (some (Settings.mk (some 0) none "normal")))
        (Except.ok ⟨3, 0⟩) (Except.ok ⟨7, 0⟩) (Except.ok ⟨9, 0⟩)
        (Except.ok ⟨11, 0⟩) =
      checkUsageLimits (ε := Unit)
        (Except.ok (some (Student.mk true none none)))
        (Except.ok (some (Settings.mk (some 0) none "normal")))
        (Except.ok ⟨3, 0⟩) (Except.ok ⟨7, 0⟩) (Except.ok ⟨9, 0⟩)
        (Except.ok ⟨11, 0⟩)) ∧
    (checkUsageLimits (ε := Unit)
        (Except.ok (some (Student.mk true (some 0) none)))
        (Except.ok (some (Settings.mk (some 0) none "normal")))
        (Except.ok ⟨3, 0⟩) (Except.ok ⟨7, 0⟩) (Except.ok ⟨9, 0⟩)
        (Except.ok ⟨11, 0⟩) =
      checkUsageLimits (ε := Unit)
        (Except.ok (some (Student.mk true (some 0) none)))
        (Except.ok (some (Settings.mk none none "normal")))
        (Except.ok ⟨3, 0⟩) (Except.ok ⟨7, 0⟩) (Except.ok ⟨9, 0⟩)
        (Except.ok ⟨11, 0⟩)) :=
  zero_token_limits_skipped (Student.mk true (some 0) none)
    (Settings.mk (some 0) none "normal") ⟨3, 0⟩ ⟨7, 0⟩ ⟨9, 0⟩ ⟨11, 0⟩
    rfl rfl rfl
